import Mathlib

/-!
# Verification of `radon/metrics.py`

A shallow embedding of the metric-computation core of the repository:
the Halstead engine (`h_visit_ast`), the maintainability-index formula
(`compute_mi`) and the parameter aggregator (`mi_parameters` / `mi_visit`).

Python floats are modelled by real numbers; a Python expression that raises
(`math.log` of a non-positive argument, `math.sqrt` of a negative argument,
division by zero) is modelled by `Option`, with `none` standing for the
raised exception.  The external collaborators (the AST visitors and the
raw-line classifier) are treated as oracles: their outputs are universally
quantified inputs of the embedded functions, exactly as the claims state.
-/

namespace Radon

/-- The fields of the `Halstead` namedtuple built by `h_visit_ast`
(`radon/metrics.py`, lines 10-12 and 60-63). -/
structure Halstead where
  h1 : ℕ
  h2 : ℕ
  N1 : ℕ
  N2 : ℕ
  vocabulary : ℕ
  length : ℕ
  calculated_length : ℝ
  volume : ℝ
  difficulty : ℝ
  effort : ℝ
  time : ℝ
  bugs : ℝ

/-- Line 57 of `metrics.py`: `volume = math.log(h ** N, 2)`.
`h ** N` is exact integer arithmetic (`0 ** 0 = 1` in Python);
`math.log(x, 2)` computes `log x / log 2` and raises `ValueError`
for `x ≤ 0`, which happens exactly when `h = 0` and `N > 0`. -/
noncomputable def volume (h N : ℕ) : Option ℝ :=
  if 0 < h ^ N then some (Real.logb 2 ((h ^ N : ℕ) : ℝ)) else none

/-- Line 58 of `metrics.py`:
`difficulty = (h1 * N2) / float(2 * h2) if h2 != 0 else 0`. -/
noncomputable def difficulty (h1 h2 N2 : ℕ) : ℝ :=
  if h2 ≠ 0 then ((h1 : ℝ) * (N2 : ℝ)) / ((2 : ℝ) * (h2 : ℝ)) else 0

/-- The `calculated_length` expression of line 61 of `metrics.py`:
`h1 * math.log(h1, 2) + h2 * math.log(h2, 2)`.
Python evaluates both `math.log` calls unconditionally, so the expression
raises `ValueError` as soon as `h1 = 0` or `h2 = 0`. -/
noncomputable def calculated_length (h1 h2 : ℕ) : Option ℝ :=
  if 0 < h1 ∧ 0 < h2 then
    some ((h1 : ℝ) * Real.logb 2 (h1 : ℝ) + (h2 : ℝ) * Real.logb 2 (h2 : ℝ))
  else none

/-- `h_visit_ast` (`metrics.py`, lines 35-63), parametrised by the four
visitor counts (`distinct_operators`, `distinct_operands`, `operators`,
`operands`).  Python evaluation order: the `volume` assignment on line 57
runs first (and may raise), then `difficulty` and `effort`, and the
`calculated_length` expression is evaluated inside the `return` on line 61
(and may raise).  `none` models a raised `ValueError`. -/
noncomputable def h_visit_ast (h1 h2 N1 N2 : ℕ) : Option Halstead :=
  let h := h1 + h2
  let N := N1 + N2
  match volume h N with
  | none => none
  | some vol =>
    let d := difficulty h1 h2 N2
    let e := d * vol
    match calculated_length h1 h2 with
    | none => none
    | some cl =>
      some ⟨h1, h2, N1, N2, h, N, cl, vol, d, e, e / 18, vol / 3000⟩

/-- `compute_mi` (`metrics.py`, lines 15-25).  The `comments_scale`
assignment computes `math.sqrt(2.46 * comments)` whenever `comments ≠ 0`,
which raises `ValueError` when `2.46 * comments < 0`; its value is never
used afterwards.  The returned expression uses `math.sin(comments)` on the
raw percentage and floors the scaled score at 0. -/
noncomputable def compute_mi (halstead_volume complexity sloc comments : ℝ) :
    Option ℝ :=
  let sloc_scale := if sloc > 0 then Real.log sloc else 0
  let volume_scale := if halstead_volume > 0 then Real.log halstead_volume else 0
  if comments ≠ 0 ∧ 2.46 * comments < 0 then none
  else
    some (max 0 ((171 - 5.2 * volume_scale - 0.23 * complexity -
      16.2 * sloc_scale + 50 * Real.sin comments) * 100 / 171))

/-- `compute_mi` with the dead `comments_scale` computation removed: the
pure score formula of lines 21-25 and nothing else.  Used to state the
refinement claim that `comments_scale` never influences the result. -/
noncomputable def compute_mi_pure (halstead_volume complexity sloc comments : ℝ) :
    ℝ :=
  let sloc_scale := if sloc > 0 then Real.log sloc else 0
  let volume_scale := if halstead_volume > 0 then Real.log halstead_volume else 0
  max 0 ((171 - 5.2 * volume_scale - 0.23 * complexity -
    16.2 * sloc_scale + 50 * Real.sin comments) * 100 / 171)

/-- The fields of the raw-line classifier output (`radon.raw.analyze`) that
`mi_parameters` reads: logical lines, source lines, comment lines and
multi-line-string lines. -/
structure RawMetrics where
  lloc : ℕ
  sloc : ℕ
  comments : ℕ
  multi : ℕ

/-- `mi_parameters` (`metrics.py`, lines 66-84), parametrised by the oracle
outputs of the external collaborators: the Halstead volume `vol`, the
average cyclomatic complexity `compl` and the raw-line counts `raw`.
Line 81 binds `comments_lines = raw.comments + (raw.multi if count_multi
else 0)` but the value is never used; line 82 divides by `float(raw.sloc)`,
raising `ZeroDivisionError` when `raw.sloc = 0` (modelled by `none`). -/
noncomputable def mi_parameters (vol compl : ℝ) (raw : RawMetrics)
    (count_multi : Bool) : Option (ℝ × ℝ × ℕ × ℝ) :=
  let comments_lines := raw.comments + (if count_multi then raw.multi else 0)
  if raw.sloc = 0 then none
  else some (vol, compl, raw.lloc,
    (raw.comments : ℝ) / (raw.sloc : ℝ) * 100)

/-- `mi_visit` (`metrics.py`, lines 87-90):
`compute_mi(*mi_parameters(code, multi))`, parametrised by the same oracle
outputs as `mi_parameters`. -/
noncomputable def mi_visit (vol compl : ℝ) (raw : RawMetrics) (multi : Bool) :
    Option ℝ :=
  match mi_parameters vol compl raw multi with
  | none => none
  | some (v, c, s, p) => compute_mi v c (s : ℝ) p

/-! ## Theorems -/

/-- C1: the claim says `h_visit_ast` never raises and never evaluates a
logarithm of a non-positive argument whenever `distinct ≤ total` in each
category.  The code refutes it: at `h1 = 0, h2 = 1, N1 = 0, N2 = 1`
(which satisfies `h1 ≤ N1` and `h2 ≤ N2`) the `calculated_length`
expression evaluates `math.log(0, 2)` and the call raises `ValueError`,
modelled here by the `none` result. -/
theorem h_visit_ast_raises_on_zero_operators :
    h_visit_ast 0 1 0 1 = none := by
  norm_num [h_visit_ast, volume, calculated_length, difficulty]

/-- C5: the claim says `h_visit_ast` on the all-zero input returns a record
with zero volume, difficulty, effort, time and bugs.  The code refutes it:
at `h1 = h2 = N1 = N2 = 0` the `volume` line succeeds
(`math.log(0 ** 0, 2) = math.log(1, 2) = 0`) but the `calculated_length`
expression evaluates `math.log(0, 2)` and the call raises `ValueError`. -/
theorem h_visit_ast_raises_on_all_zero :
    h_visit_ast 0 0 0 0 = none := by
  norm_num [h_visit_ast, volume, calculated_length, difficulty]

/-- C4: the claim says `mi_parameters` special-cases a zero line count and
returns comment percentage 0.  The code refutes it: with the classifier
output of an empty source unit (all counts zero, in particular
`sloc = 0`), line 82 divides by `float(0)` and raises
`ZeroDivisionError`, modelled here by the `none` result. -/
theorem mi_parameters_raises_on_zero_sloc :
    mi_parameters 0 0 ⟨0, 0, 0, 0⟩ false = none := by
  norm_num [mi_parameters]

/-- C9: `mi_visit` is independent of its `multi` flag.  The flag reaches
only the `comments_lines` binding inside `mi_parameters`, whose value is
never used in the returned tuple, so for every fixed set of visitor and
raw-line classifier outputs the two runs coincide. -/
theorem mi_visit_flag_independent (vol compl : ℝ) (raw : RawMetrics) :
    mi_visit vol compl raw true = mi_visit vol compl raw false := rfl

/-- C6: the `volume` expression of line 57.  On the valid inputs (visitor
outputs: a zero vocabulary forces a zero length), it never evaluates a
logarithm of a non-positive number, equals `N * log2 h` when `h > 0` and
equals 0 when `h = 0` (Python computes `0 ** 0 = 1`, so `math.log(1, 2) = 0`
is evaluated, never `math.log(0, 2)`). -/
theorem volume_zero_guard (h N : ℕ) (hdeg : h = 0 → N = 0) :
    ∃ v, volume h N = some v ∧
      (0 < h → v = (N : ℝ) * Real.logb 2 (h : ℝ)) ∧ (h = 0 → v = 0) := by
  rcases Nat.eq_zero_or_pos h with h0 | hpos
  · have hN := hdeg h0
    subst h0; subst hN
    exact ⟨0, by norm_num [volume, Real.logb_one],
      fun hc => absurd hc (by norm_num), fun _ => rfl⟩
  · have hpow : 0 < h ^ N := pow_pos hpos N
    refine ⟨(N : ℝ) * Real.logb 2 (h : ℝ), ?_, fun _ => rfl,
      fun hc => absurd hc (by omega)⟩
    simp only [volume, if_pos hpow]
    congr 1
    push_cast
    exact Real.logb_pow 2 (h : ℝ) N

/-- Closed instance of `volume_zero_guard` at `h = 2`, `N = 3`. -/
theorem volume_zero_guard_witness :
    ∃ v, volume 2 3 = some v ∧
      (0 < (2 : ℕ) → v = ((3 : ℕ) : ℝ) * Real.logb 2 ((2 : ℕ) : ℝ)) ∧
      ((2 : ℕ) = 0 → v = 0) :=
  volume_zero_guard 2 3 (by omega)

/-- C7 counterexample: the claim says that with `h2 = 0` and `h1 > 0` the
returned volume is still computed as usual, i.e. a record is returned.  At
`h1 = 1, h2 = 0, N1 = 1, N2 = 0` the `volume` line does evaluate, but
`h_visit_ast` then raises `ValueError` in the `calculated_length`
expression (`math.log(0, 2)`), so nothing is returned. -/
theorem h_visit_ast_no_record_when_h2_zero :
    h_visit_ast 1 0 1 0 = none := by
  norm_num [h_visit_ast, volume, calculated_length, difficulty]

/-- C7 amended: the `difficulty` expression of line 58 equals
`(h1 / 2) * (N2 / h2)` when `h2 ≠ 0` and `0` otherwise; when `h2 = 0` and
`h1 > 0` the `volume` expression of line 57 is still evaluated from
`h = h1 + 0` and `N = N1 + N2` as usual, but the call itself then raises in
`calculated_length`, so no record carrying that volume is returned. -/
theorem difficulty_zero_guard :
    (∀ h1 h2 N2 : ℕ, difficulty h1 h2 N2 =
      if h2 ≠ 0 then ((h1 : ℝ) / 2) * ((N2 : ℝ) / (h2 : ℝ)) else 0) ∧
    (∀ h1 N1 N2 : ℕ, 0 < h1 →
      volume (h1 + 0) (N1 + N2) =
        some (((N1 + N2 : ℕ) : ℝ) * Real.logb 2 ((h1 + 0 : ℕ) : ℝ))) ∧
    (∀ h1 N1 N2 : ℕ, 0 < h1 → h_visit_ast h1 0 N1 N2 = none) := by
  refine ⟨fun h1 h2 N2 => ?_, fun h1 N1 N2 hpos => ?_, fun h1 N1 N2 hpos => ?_⟩
  · rw [difficulty]
    split_ifs with hc
    · rw [div_mul_div_comm]
    · rfl
  · have hpow : 0 < (h1 + 0) ^ (N1 + N2) := pow_pos (by omega) _
    simp only [volume, if_pos hpow]
    congr 1
    rw [Nat.cast_pow, Real.logb_pow]
  · have hv : 0 < (h1 + 0) ^ (N1 + N2) := pow_pos (by omega) _
    have hc : calculated_length h1 0 = none := by
      simp [calculated_length]
    simp only [h_visit_ast, volume, if_pos hv, hc]

/-- Closed instance of `difficulty_zero_guard` at concrete counts. -/
theorem difficulty_zero_guard_witness :
    (difficulty 3 2 5 =
      if (2 : ℕ) ≠ 0 then (((3 : ℕ) : ℝ) / 2) * (((5 : ℕ) : ℝ) / ((2 : ℕ) : ℝ)) else 0) ∧
    h_visit_ast 2 0 3 4 = none :=
  ⟨difficulty_zero_guard.1 3 2 5, difficulty_zero_guard.2.2 2 3 4 (by omega)⟩

/-- Helper: for a non-negative comment percentage the `comments_scale`
guard of `compute_mi` does not fire and the score formula is returned. -/
lemma compute_mi_of_nonneg (v c s p : ℝ) (hp : 0 ≤ p) :
    compute_mi v c s p =
      some (max 0 ((171 - 5.2 * (if v > 0 then Real.log v else 0) - 0.23 * c -
        16.2 * (if s > 0 then Real.log s else 0) + 50 * Real.sin p) * 100 / 171)) := by
  have hg : ¬(p ≠ 0 ∧ 2.46 * p < 0) := by
    rintro ⟨-, h2⟩
    nlinarith
  simp only [compute_mi]
  rw [if_neg hg]

/-- Helper: for a negative comment percentage `compute_mi` raises
(`math.sqrt` of a negative argument on line 23). -/
lemma compute_mi_of_neg (v c s p : ℝ) (hp : p < 0) :
    compute_mi v c s p = none := by
  have hg : p ≠ 0 ∧ 2.46 * p < 0 := ⟨ne_of_lt hp, by nlinarith⟩
  simp only [compute_mi]
  rw [if_pos hg]

/-- Helper: whenever `compute_mi` returns a value, that value is the score
formula of lines 24-25. -/
lemma compute_mi_eq_of_some {v c s p r : ℝ} (h : compute_mi v c s p = some r) :
    r = max 0 ((171 - 5.2 * (if v > 0 then Real.log v else 0) - 0.23 * c -
      16.2 * (if s > 0 then Real.log s else 0) + 50 * Real.sin p) * 100 / 171) := by
  by_cases hg : p ≠ 0 ∧ 2.46 * p < 0
  · rw [compute_mi, if_pos hg] at h
    exact absurd h (by simp)
  · rw [compute_mi, if_neg hg] at h
    exact (Option.some.inj h).symm

/-- C3 counterexample: at the finite input `(1, 1, 1, -1)` the code does
not return the claimed `max(0, ...)` value: the `comments_scale`
assignment evaluates `math.sqrt(2.46 * (-1))` and raises `ValueError`. -/
theorem compute_mi_neg_percentage_counterexample :
    compute_mi 1 1 1 (-1) = none ∧
    compute_mi 1 1 1 (-1) ≠
      some (max 0 ((171 - 5.2 * (if (1 : ℝ) > 0 then Real.log 1 else 0) - 0.23 * 1 -
        16.2 * (if (1 : ℝ) > 0 then Real.log 1 else 0) + 50 * Real.sin (-1)) * 100 / 171)) := by
  have h := compute_mi_of_neg 1 1 1 (-1) (by norm_num)
  exact ⟨h, by rw [h]; exact fun hc => Option.noConfusion hc⟩

/-- C3 amended: for every finite volume, complexity and line count, and
every comment percentage `p ≥ 0`, `compute_mi` returns
`max(0, (171 - 5.2*volume_scale - 0.23*c - 16.2*sloc_scale + 50*sin p) * 100 / 171)`
with the zero-guarded natural-log scales and `sin` applied to the raw
percentage; in particular `compute_mi 1 1 1 0 = 170.77 * 100 / 171`. -/
theorem compute_mi_formula :
    (∀ v c s p : ℝ, 0 ≤ p → compute_mi v c s p =
      some (max 0 ((171 - 5.2 * (if v > 0 then Real.log v else 0) - 0.23 * c -
        16.2 * (if s > 0 then Real.log s else 0) + 50 * Real.sin p) * 100 / 171))) ∧
    compute_mi 1 1 1 0 = some (170.77 * 100 / 171) := by
  refine ⟨fun v c s p hp => compute_mi_of_nonneg v c s p hp, ?_⟩
  rw [compute_mi_of_nonneg 1 1 1 0 le_rfl]
  norm_num [Real.log_one, Real.sin_zero]

/-- Closed instance of the quantified part of `compute_mi_formula`. -/
theorem compute_mi_formula_witness :
    compute_mi 1 0 1 0 =
      some (max 0 ((171 - 5.2 * (if (1 : ℝ) > 0 then Real.log 1 else 0) - 0.23 * 0 -
        16.2 * (if (1 : ℝ) > 0 then Real.log 1 else 0) + 50 * Real.sin 0) * 100 / 171)) :=
  compute_mi_formula.1 1 0 1 0 le_rfl

/-- C8: `compute_mi` is monotonically non-increasing in the complexity
argument, and in volume and line count through their logarithmic scales on
the positive domain, all other arguments held fixed.  Stated on every pair
of runs that actually return a value. -/
theorem compute_mi_monotone :
    (∀ v s p c₁ c₂ r₁ r₂ : ℝ, c₁ ≤ c₂ →
      compute_mi v c₁ s p = some r₁ → compute_mi v c₂ s p = some r₂ → r₂ ≤ r₁) ∧
    (∀ c s p v₁ v₂ r₁ r₂ : ℝ, 0 < v₁ → v₁ ≤ v₂ →
      compute_mi v₁ c s p = some r₁ → compute_mi v₂ c s p = some r₂ → r₂ ≤ r₁) ∧
    (∀ v c p s₁ s₂ r₁ r₂ : ℝ, 0 < s₁ → s₁ ≤ s₂ →
      compute_mi v c s₁ p = some r₁ → compute_mi v c s₂ p = some r₂ → r₂ ≤ r₁) := by
  refine ⟨fun v s p c₁ c₂ r₁ r₂ hc h₁ h₂ => ?_,
    fun c s p v₁ v₂ r₁ r₂ hv₁ hv h₁ h₂ => ?_,
    fun v c p s₁ s₂ r₁ r₂ hs₁ hs h₁ h₂ => ?_⟩
  · rw [compute_mi_eq_of_some h₁, compute_mi_eq_of_some h₂]
    exact max_le_max le_rfl (by linarith)
  · rw [compute_mi_eq_of_some h₁, compute_mi_eq_of_some h₂]
    have hv₂ : (0 : ℝ) < v₂ := lt_of_lt_of_le hv₁ hv
    rw [if_pos hv₁, if_pos hv₂]
    have hlog : Real.log v₁ ≤ Real.log v₂ := Real.log_le_log hv₁ hv
    exact max_le_max le_rfl (by linarith)
  · rw [compute_mi_eq_of_some h₁, compute_mi_eq_of_some h₂]
    have hs₂ : (0 : ℝ) < s₂ := lt_of_lt_of_le hs₁ hs
    rw [if_pos hs₁, if_pos hs₂]
    have hlog : Real.log s₁ ≤ Real.log s₂ := Real.log_le_log hs₁ hs
    exact max_le_max le_rfl (by linarith)

/-- Closed instance of `compute_mi_monotone`: raising complexity from 0 to
1 at fixed volume 1, line count 1 and comment percentage 0 does not raise
the score. -/
theorem compute_mi_monotone_witness :
    max 0 ((171 - 5.2 * (if (1 : ℝ) > 0 then Real.log 1 else 0) - 0.23 * 1 -
      16.2 * (if (1 : ℝ) > 0 then Real.log 1 else 0) + 50 * Real.sin 0) * 100 / 171) ≤
    max 0 ((171 - 5.2 * (if (1 : ℝ) > 0 then Real.log 1 else 0) - 0.23 * 0 -
      16.2 * (if (1 : ℝ) > 0 then Real.log 1 else 0) + 50 * Real.sin 0) * 100 / 171) :=
  compute_mi_monotone.1 1 1 0 0 1 _ _ (by norm_num)
    (compute_mi_of_nonneg 1 0 1 0 le_rfl) (compute_mi_of_nonneg 1 1 1 0 le_rfl)

/-- C10: the dead `comments_scale` computation of line 23 never influences
the returned score — on every input where `compute_mi` is defined it agrees
with `compute_mi_pure`, the same function with that computation removed —
and its only observable effect is that `compute_mi` raises (square root of
a negative number) for every negative comment percentage. -/
theorem compute_mi_comments_scale_dead :
    (∀ v c s p : ℝ, 0 ≤ p → compute_mi v c s p = some (compute_mi_pure v c s p)) ∧
    (∀ v c s p : ℝ, p < 0 → compute_mi v c s p = none) := by
  refine ⟨fun v c s p hp => ?_, fun v c s p hp => compute_mi_of_neg v c s p hp⟩
  rw [compute_mi_of_nonneg v c s p hp]
  rfl

/-- Closed instance of `compute_mi_comments_scale_dead` at percentage 5
(defined, agrees with the scale-free function) and -5 (raises). -/
theorem compute_mi_comments_scale_dead_witness :
    compute_mi 1 1 1 5 = some (compute_mi_pure 1 1 1 5) ∧
    compute_mi 1 1 1 (-5) = none :=
  ⟨compute_mi_comments_scale_dead.1 1 1 1 5 (by norm_num),
    compute_mi_comments_scale_dead.2 1 1 1 (-5) (by norm_num)⟩

/-- C2 counterexample: with classifier output `lloc = 2, sloc = 4,
comments = 1, multi = 1` and the flag set, the claim predicts percentage
`(1 + 1) / 2 * 100 = 100`; the code returns `1 / 4 * 100 = 25` (it divides
`raw.comments` by `raw.sloc`) and the flag changes nothing even though
`multi = 1 > 0`. -/
theorem mi_parameters_pct_counterexample :
    mi_parameters 0 0 ⟨2, 4, 1, 1⟩ true = some (0, 0, 2, 25) ∧
    mi_parameters 0 0 ⟨2, 4, 1, 1⟩ true = mi_parameters 0 0 ⟨2, 4, 1, 1⟩ false ∧
    (25 : ℝ) ≠ ((1 : ℝ) + 1) / 2 * 100 := by
  refine ⟨?_, rfl, by norm_num⟩
  norm_num [mi_parameters]

/-- C2 amended: whenever the classifier reports `sloc ≠ 0`, the fourth
result of `mi_parameters` is `raw.comments / raw.sloc * 100` — the plain
comment count as a percentage of the source-line count — independently of
the count-multiline-as-comment flag, whose `comments_lines` value is
computed on line 81 but never used. -/
theorem mi_parameters_pct (vol compl : ℝ) (raw : RawMetrics) (b : Bool)
    (h : raw.sloc ≠ 0) :
    mi_parameters vol compl raw b =
      some (vol, compl, raw.lloc, (raw.comments : ℝ) / (raw.sloc : ℝ) * 100) := by
  simp only [mi_parameters]
  rw [if_neg h]

/-- Closed instance of `mi_parameters_pct`. -/
theorem mi_parameters_pct_witness :
    mi_parameters 1 2 ⟨3, 4, 5, 6⟩ true = some (1, 2, 3, 125) := by
  have h := mi_parameters_pct 1 2 ⟨3, 4, 5, 6⟩ true (by norm_num)
  rw [h]
  norm_num

end Radon
